import Mathlib

set_option maxRecDepth 100000

/-!
# Verification of the `bevy_testing` query-assertion builder

Shallow embedding of the crate's core logic:

* `AssertQuery` (src/query.rs) — the fluent assertion builder over a
  materialized query result set, with the one-shot `invert` flag.
  Rust's fatal aborts (`mismatch` / `unexpected_match`, both `-> !`)
  are embedded as `Except (Failure α) (AssertQuery α)`: `.error` is an
  abort (panic), `.ok` is the returned builder.  Each `Failure`
  constructor corresponds to one abort call site and carries the exact
  arguments the site passes to the diagnostic routine.
* the diagnostic preview truncation of `mismatch` / `unexpected_match`
  (src/lib.rs): Rust strings are embedded as `List Char`, `String::len`
  as the UTF-8 byte length, and the slice `s[0..MAX_DEBUG_LEN]` as a
  partial operation that fails (Rust: panics) when the byte offset is
  not a character boundary.
* `TestApp::component` / `TestApp::get_component` (src/lib.rs), over an
  abstract component store standing for the host framework's `World`.

The record type `α` stands for `D::Item<'w> : Debug + PartialEq`;
`PartialEq` is embedded as `DecidableEq` so everything evaluates.
-/

section Builder

variable {α : Type} [DecidableEq α]

/-- One abort call site per constructor, carrying the values the Rust code
passes to `mismatch(message, given, found)` / `unexpected_match(message, matches)`.
Constructors prefixed `match` come from `unexpected_match` sites. -/
inductive Failure (α : Type) where
  /-- `matches`: mismatch "One of the given bundles wasn't found in the query.",
  given = `&given` (the whole expected list), found = `None`. -/
  | resultNotFound (given : List α)
  /-- `matches`: mismatch "The query contains an unexpected bundle.",
  given = `None`, found = the offending expected bundle. -/
  | unexpectedBundle (bundle : α)
  /-- `matches`: mismatch "The length of the query result and the given result
  mismatches.", given = `given.len()`, found = `self.query.len()`. -/
  | lengthMismatch (given found : Nat)
  /-- `has`: mismatch "The given bundle wasn't found in the query.",
  given = the bundle, found = `None`. -/
  | hasNotFound (given : α)
  /-- `has_all`: mismatch "The given bundle wasn't found in the query.",
  given = the missing element, found = `None`. -/
  | hasAllNotFound (given : α)
  /-- `has_any`: mismatch "None of the given bundles were found in the query.",
  given = the whole given list, found = `None`. -/
  | hasAnyNoneFound (given : List α)
  /-- `all`: mismatch "The predicate fails on one of the bundles",
  given = the predicate's type name, found = the failing bundle. -/
  | allPredicateFails (bundle : α)
  /-- `any`: mismatch "The predicate didn't match on any of the bundles",
  given = the predicate's type name, found = `None`. -/
  | anyPredicateNone
  /-- `length`: mismatch "The length of the query result mismatches.",
  given = the given length, found = `self.query.len()`. -/
  | queryLengthMismatch (given found : Nat)
  /-- `not_matches`: unexpected_match "The query matches with the given bundles",
  matches = the given list. -/
  | matchMatches (given : List α)
  /-- `not_has`: unexpected_match "The query contains all given bundles",
  matches = the given bundle. -/
  | matchHas (given : α)
  /-- `not_has_all`: unexpected_match "The query has all given bundles.",
  matches = the given list. -/
  | matchHasAll (given : List α)
  /-- `not_has_any`: unexpected_match "Some of the given bundles were found in
  the query.", matches = `self.query.iter().find(..)`. -/
  | matchHasAny (bundle : Option α)
  /-- `not_all`: unexpected_match "The predicate matches on all of the bundles.",
  matches = `self.query`. -/
  | matchAll (query : List α)
  /-- `not_any`: unexpected_match "The predicate matched on one of the bundles",
  matches = `self.query.iter().find(..)`. -/
  | matchAny (bundle : Option α)
  /-- `not_length`: unexpected_match "The length of the query result matches.",
  matches = the given length. -/
  | matchLength (given : Nat)
deriving DecidableEq

/-- The record values occurring among the arguments an abort site passes to
the diagnostic routine (the values the Given/Found/Match sections render). -/
def Failure.cited : Failure α → List α
  | .resultNotFound given => given
  | .unexpectedBundle bundle => [bundle]
  | .lengthMismatch _ _ => []
  | .hasNotFound given => [given]
  | .hasAllNotFound given => [given]
  | .hasAnyNoneFound given => given
  | .allPredicateFails bundle => [bundle]
  | .anyPredicateNone => []
  | .queryLengthMismatch _ _ => []
  | .matchMatches given => given
  | .matchHas given => [given]
  | .matchHasAll given => given
  | .matchHasAny bundle => bundle.toList
  | .matchAll query => query
  | .matchAny bundle => bundle.toList
  | .matchLength _ => []

/-- `AssertQuery` (src/query.rs): the materialized result snapshot and
the one-shot inversion flag. -/
structure AssertQuery (α : Type) where
  query : List α
  invert : Bool
deriving DecidableEq

namespace AssertQuery

/-- `AssertQuery::not`: flip the `invert` flag. -/
def not (self : AssertQuery α) : AssertQuery α :=
  { self with invert := !self.invert }

/-- `AssertQuery::reset_invert`: set `invert` to `false`. -/
def reset_invert (self : AssertQuery α) : AssertQuery α :=
  { self with invert := false }

/-- The first element of `xs` for which `ys.any (fun v => v == x)` is false:
the abort-triggering element of the Rust loops
`for bundle in xs { if !ys.iter().any(|v| v == bundle) { ... } }`. -/
def first_unmatched : List α → List α → Option α
  | [], _ => none
  | bundle :: rest, ys =>
    if ys.any (fun v => v == bundle) then first_unmatched rest ys else some bundle

/-- The first element of `xs` failing the predicate: the abort-triggering
element of `for bundle in xs { if !predicate(bundle) { ... } }`. -/
def first_failing : List α → (α → Bool) → Option α
  | [], _ => none
  | bundle :: rest, p =>
    if p bundle then first_failing rest p else some bundle

/-- `AssertQuery::not_matches`. -/
def not_matches (self : AssertQuery α) (given : List α) :
    Except (Failure α) (AssertQuery α) :=
  match first_unmatched self.query given with
  | some _ => .ok self.reset_invert
  | none =>
    match first_unmatched given self.query with
    | some _ => .ok self.reset_invert
    | none =>
      if given.length ≠ self.query.length then .ok self.reset_invert
      else .error (.matchMatches given)

/-- `AssertQuery::matches`. -/
def matches_ (self : AssertQuery α) (given : List α) :
    Except (Failure α) (AssertQuery α) :=
  if self.invert then self.not_matches given
  else
    match first_unmatched self.query given with
    | some _ => .error (.resultNotFound given)
    | none =>
      match first_unmatched given self.query with
      | some bundle => .error (.unexpectedBundle bundle)
      | none =>
        if given.length ≠ self.query.length then
          .error (.lengthMismatch given.length self.query.length)
        else .ok self

/-- `AssertQuery::not_has`. -/
def not_has (self : AssertQuery α) (given : α) :
    Except (Failure α) (AssertQuery α) :=
  if self.query.any (fun bundle => bundle == given) then .error (.matchHas given)
  else .ok self.reset_invert

/-- `AssertQuery::has`. -/
def has (self : AssertQuery α) (given : α) :
    Except (Failure α) (AssertQuery α) :=
  if self.invert then self.not_has given
  else
    if self.query.any (fun bundle => bundle == given) then .ok self
    else .error (.hasNotFound given)

/-- `AssertQuery::not_has_all`. -/
def not_has_all (self : AssertQuery α) (given : List α) :
    Except (Failure α) (AssertQuery α) :=
  match first_unmatched given self.query with
  | some _ => .ok self.reset_invert
  | none => .error (.matchHasAll given)

/-- `AssertQuery::has_all`. -/
def has_all (self : AssertQuery α) (given : List α) :
    Except (Failure α) (AssertQuery α) :=
  if self.invert then self.not_has_all given
  else
    match first_unmatched given self.query with
    | some bundle => .error (.hasAllNotFound bundle)
    | none => .ok self

/-- `AssertQuery::not_has_any`. -/
def not_has_any (self : AssertQuery α) (given : List α) :
    Except (Failure α) (AssertQuery α) :=
  if self.query.any (fun bundle => given.any (fun g => g == bundle)) then
    .error (.matchHasAny (self.query.find? (fun bundle => given.any (fun g => g == bundle))))
  else .ok self.reset_invert

/-- `AssertQuery::has_any`. -/
def has_any (self : AssertQuery α) (given : List α) :
    Except (Failure α) (AssertQuery α) :=
  if self.invert then self.not_has_any given
  else
    if self.query.any (fun bundle => given.any (fun g => g == bundle)) then .ok self
    else .error (.hasAnyNoneFound given)

/-- `AssertQuery::not_all`. -/
def not_all (self : AssertQuery α) (p : α → Bool) :
    Except (Failure α) (AssertQuery α) :=
  match first_failing self.query p with
  | some _ => .ok self.reset_invert
  | none => .error (.matchAll self.query)

/-- `AssertQuery::all`. -/
def all (self : AssertQuery α) (p : α → Bool) :
    Except (Failure α) (AssertQuery α) :=
  if self.invert then self.not_all p
  else
    match first_failing self.query p with
    | some bundle => .error (.allPredicateFails bundle)
    | none => .ok self

/-- `AssertQuery::not_any`. -/
def not_any (self : AssertQuery α) (p : α → Bool) :
    Except (Failure α) (AssertQuery α) :=
  if self.query.any p then .error (.matchAny (self.query.find? p))
  else .ok self.reset_invert

/-- `AssertQuery::any`. -/
def any (self : AssertQuery α) (p : α → Bool) :
    Except (Failure α) (AssertQuery α) :=
  if self.invert then self.not_any p
  else
    if self.query.any p then .ok self
    else .error .anyPredicateNone

/-- `AssertQuery::not_length`. -/
def not_length (self : AssertQuery α) (given : Nat) :
    Except (Failure α) (AssertQuery α) :=
  if self.query.length == given then .error (.matchLength given)
  else .ok self.reset_invert

/-- `AssertQuery::length`. -/
def length (self : AssertQuery α) (given : Nat) :
    Except (Failure α) (AssertQuery α) :=
  if self.invert then self.not_length given
  else
    if self.query.length ≠ given then
      .error (.queryLengthMismatch given self.query.length)
    else .ok self

end AssertQuery

/-- `invert` of the builder an assertion call returns; `false` when the call
aborts (an abort returns no builder at all). -/
def invert_after (r : Except (Failure α) (AssertQuery α)) : Bool :=
  match r with
  | .ok q => q.invert
  | .error _ => false

end Builder

section Diagnostics

/-- `MAX_DEBUG_LEN` (src/lib.rs): the preview bound for diagnostic sections. -/
def MAX_DEBUG_LEN : Nat := 300

/-- Rust `String::len`: the length in bytes of the UTF-8 encoding.
Rust strings are embedded as their character sequences (`List Char`). -/
def utf8_len (s : List Char) : Nat := (s.map Char.utf8Size).sum

/-- Rust `&s[0..n]` on a string slice: `some` prefix whose UTF-8 encoding is
exactly the first `n` bytes when byte offset `n` falls on a character
boundary (and `n ≤ s.len()`); `none` when the indexing panics. -/
def take_bytes : List Char → Nat → Option (List Char)
  | _, 0 => some []
  | [], _ + 1 => none
  | c :: rest, n + 1 =>
    if c.utf8Size ≤ n + 1 then
      match take_bytes rest (n + 1 - c.utf8Size) with
      | some t => some (c :: t)
      | none => none
    else none

/-- The `" ..."` elision marker appended to a truncated preview
(`.bright_black()` only adds terminal styling around these characters). -/
def elision_marker : List Char := [' ', '.', '.', '.']

/-- The preview post-processing both `mismatch` and `unexpected_match`
(src/lib.rs) apply to a Debug-rendered section:
`if s.len() > MAX_DEBUG_LEN { s = s[0..MAX_DEBUG_LEN].to_owned() + " ..." }`.
`none` embeds a panic of the byte-slice indexing itself. -/
def truncate_debug (s : List Char) : Option (List Char) :=
  if utf8_len s > MAX_DEBUG_LEN then
    match take_bytes s MAX_DEBUG_LEN with
    | some t => some (t ++ elision_marker)
    | none => none
  else some s

/-- `mismatch` (src/lib.rs), restricted to what it computes: the truncated
Given and Found previews, in that order; `none` when a slice panics before
the diagnostic is produced. -/
def mismatch (given found : List Char) : Option (List Char × List Char) :=
  match truncate_debug given with
  | none => none
  | some g =>
    match truncate_debug found with
    | none => none
    | some f => some (g, f)

/-- `unexpected_match` (src/lib.rs), restricted to what it computes: the
truncated Match preview; `none` when the slice panics. -/
def unexpected_match (matched : List Char) : Option (List Char) :=
  truncate_debug matched

end Diagnostics

section ComponentLookup

/-- The components of type `T` attached to existing entities: an abstract
stand-in for bevy's `World` (external to this crate), as observed through
`world().entity(entity).get::<T>()`. -/
def ComponentStore (T : Type) := Nat → Option T

/-- `TestApp::get_component` (src/lib.rs):
`self.world().entity(entity).get::<T>()`. -/
def TestApp.get_component {T : Type} (w : ComponentStore T) (entity : Nat) :
    Option T :=
  w entity

/-- `TestApp::component` (src/lib.rs):
`self.get_component(entity).unwrap_or_else(|| panic!(...))`;
the panic is embedded as `Except.error` with the panic message. -/
def TestApp.component {T : Type} (w : ComponentStore T) (entity : Nat) :
    Except String T :=
  match TestApp.get_component w entity with
  | some v => Except.ok v
  | none => Except.error "component is not part of the entity"

end ComponentLookup

section Lemmas

variable {α : Type} [DecidableEq α]

theorem any_beq_iff_mem (ys : List α) (x : α) :
    ys.any (fun v => v == x) = true ↔ x ∈ ys := by
  simp [List.any_eq_true]

theorem first_unmatched_eq_none_iff (xs ys : List α) :
    AssertQuery.first_unmatched xs ys = none ↔ ∀ x ∈ xs, x ∈ ys := by
  induction xs with
  | nil => simp [AssertQuery.first_unmatched]
  | cons a rest ih =>
    simp only [AssertQuery.first_unmatched]
    by_cases h : a ∈ ys
    · rw [if_pos ((any_beq_iff_mem ys a).2 h)]
      simp [ih, h]
    · rw [if_neg (fun hc => h ((any_beq_iff_mem ys a).1 hc))]
      simp [h]

theorem first_unmatched_of_decomp (ys : List α) (pre : List α) (x : α)
    (post : List α) (hpre : ∀ p ∈ pre, p ∈ ys) (hx : x ∉ ys) :
    AssertQuery.first_unmatched (pre ++ x :: post) ys = some x := by
  induction pre with
  | nil =>
    simp only [List.nil_append, AssertQuery.first_unmatched]
    rw [if_neg (fun hc => hx ((any_beq_iff_mem ys x).1 hc))]
  | cons p rest ih =>
    simp only [List.cons_append, AssertQuery.first_unmatched]
    rw [if_pos ((any_beq_iff_mem ys p).2 (hpre p (List.mem_cons_self p rest)))]
    exact ih (fun q hq => hpre q (List.mem_cons_of_mem p hq))

theorem first_unmatched_eq_some (xs ys : List α) (x : α)
    (h : AssertQuery.first_unmatched xs ys = some x) :
    x ∉ ys ∧ ∃ pre post, xs = pre ++ x :: post ∧ ∀ p ∈ pre, p ∈ ys := by
  induction xs with
  | nil => simp [AssertQuery.first_unmatched] at h
  | cons a rest ih =>
    simp only [AssertQuery.first_unmatched] at h
    by_cases ha : a ∈ ys
    · rw [if_pos ((any_beq_iff_mem ys a).2 ha)] at h
      obtain ⟨hx, pre, post, heq, hpre⟩ := ih h
      exact ⟨hx, a :: pre, post, by simp [heq], by
        intro p hp
        rcases List.mem_cons.1 hp with hpa | hp
        · exact hpa ▸ ha
        · exact hpre p hp⟩
    · rw [if_neg (fun hc => ha ((any_beq_iff_mem ys a).1 hc))] at h
      obtain rfl : a = x := Option.some.inj h
      exact ⟨ha, [], rest, rfl, by simp⟩

theorem matches_ok_iff (R E : List α) :
    ((AssertQuery.mk R false).matches_ E).isOk = true ↔
      (∀ r ∈ R, r ∈ E) ∧ (∀ e ∈ E, e ∈ R) ∧ E.length = R.length := by
  rw [← first_unmatched_eq_none_iff R E, ← first_unmatched_eq_none_iff E R]
  simp only [AssertQuery.matches_]
  cases h1 : AssertQuery.first_unmatched R E with
  | some b => simp [h1, Except.isOk, Except.toBool]
  | none =>
    cases h2 : AssertQuery.first_unmatched E R with
    | some b => simp [h1, h2, Except.isOk, Except.toBool]
    | none =>
      by_cases h3 : E.length = R.length
      · simp [h1, h2, h3, Except.isOk, Except.toBool]
      · simp [h1, h2, h3, Except.isOk, Except.toBool]

theorem take_bytes_spec (s : List Char) :
    ∀ (n : Nat) (u : List Char), take_bytes s n = some u →
      (∃ v, s = u ++ v) ∧ utf8_len u = n := by
  induction s with
  | nil =>
    intro n u h
    cases n with
    | zero =>
      obtain rfl : [] = u := Option.some.inj h
      exact ⟨⟨[], rfl⟩, rfl⟩
    | succ m => simp [take_bytes] at h
  | cons c rest ih =>
    intro n u h
    cases n with
    | zero =>
      obtain rfl : [] = u := Option.some.inj h
      exact ⟨⟨c :: rest, rfl⟩, rfl⟩
    | succ m =>
      simp only [take_bytes] at h
      split at h
      · rename_i hle
        split at h
        · rename_i t ht
          obtain rfl : c :: t = u := Option.some.inj h
          obtain ⟨⟨v, hv⟩, hlen⟩ := ih (m + 1 - c.utf8Size) t ht
          refine ⟨⟨v, by simp [hv]⟩, ?_⟩
          simp only [utf8_len, List.map_cons, List.sum_cons] at hlen ⊢
          omega
        · exact absurd h (by simp)
      · exact absurd h (by simp)

end Lemmas

/-- C1 (amended): the non-inverted `matches(E)` succeeds iff every result
record appears in `E`, every record of `E` appears in the results, and the
lengths agree — set equality in both directions plus a length check, which is
implied by multiset equality but strictly weaker; the outcome is invariant
under permutation of both the results and `E`, so order never matters. -/
theorem C1_matches_set_equality {α : Type} [DecidableEq α] (R E : List α) :
    (((AssertQuery.mk R false).matches_ E).isOk = true ↔
      (∀ r ∈ R, r ∈ E) ∧ (∀ e ∈ E, e ∈ R) ∧ E.length = R.length) ∧
    (∀ R' E', R.Perm R' → E.Perm E' →
      (((AssertQuery.mk R' false).matches_ E').isOk = true ↔
        ((AssertQuery.mk R false).matches_ E).isOk = true)) := by
  refine ⟨matches_ok_iff R E, ?_⟩
  intro R' E' hR hE
  rw [matches_ok_iff, matches_ok_iff]
  constructor
  · rintro ⟨h1, h2, h3⟩
    exact ⟨fun r hr => hE.mem_iff.2 (h1 r (hR.mem_iff.1 hr)),
           fun e he => hR.mem_iff.2 (h2 e (hE.mem_iff.1 he)),
           by rw [hE.length_eq, hR.length_eq]; exact h3⟩
  · rintro ⟨h1, h2, h3⟩
    exact ⟨fun r hr => hE.mem_iff.1 (h1 r (hR.mem_iff.2 hr)),
           fun e he => hR.mem_iff.1 (h2 e (hE.mem_iff.2 he)),
           by rw [← hE.length_eq, ← hR.length_eq]; exact h3⟩

/-- C1 counterexample: for results `[0, 0, 1]` and expected `[0, 1, 1]`,
`matches` succeeds although the two are not equal as multisets (the
multiplicity of `0` differs), refuting the claimed multiset-equality iff. -/
theorem C1_counterexample :
    ((AssertQuery.mk [0, 0, 1] false).matches_ ([0, 1, 1] : List Nat)).isOk = true ∧
    ([0, 0, 1] : List Nat).count 0 ≠ ([0, 1, 1] : List Nat).count 0 := by decide

/-- C1 witness: the permutation-invariance conjunct applied at results
`[0, 1]`, expected `[1, 0]` versus `[0, 1]`. -/
theorem C1_witness :
    ((AssertQuery.mk [0, 1] false).matches_ ([1, 0] : List Nat)).isOk = true ↔
      ((AssertQuery.mk [0, 1] false).matches_ ([0, 1] : List Nat)).isOk = true :=
  (C1_matches_set_equality ([0, 1] : List Nat) [0, 1]).2 [0, 1] [1, 0]
    (List.Perm.refl _) (by decide)

/-- C2: for every builder state and every assertion method with any argument,
any builder the call returns carries `invert = false` (`invert_after` reads
the flag off the returned builder and is `false` on the abort path, where no
builder is returned at all). -/
theorem C2_invert_reset {α : Type} [DecidableEq α] (q : List α) (b : Bool)
    (x : α) (g : List α) (p : α → Bool) (n : Nat) :
    invert_after ((AssertQuery.mk q b).matches_ g) = false ∧
    invert_after ((AssertQuery.mk q b).has x) = false ∧
    invert_after ((AssertQuery.mk q b).has_all g) = false ∧
    invert_after ((AssertQuery.mk q b).has_any g) = false ∧
    invert_after ((AssertQuery.mk q b).all p) = false ∧
    invert_after ((AssertQuery.mk q b).any p) = false ∧
    invert_after ((AssertQuery.mk q b).length n) = false := by
  cases b <;>
    refine ⟨?_, ?_, ?_, ?_, ?_, ?_, ?_⟩ <;>
    · simp only [AssertQuery.matches_, AssertQuery.not_matches, AssertQuery.has,
        AssertQuery.not_has, AssertQuery.has_all, AssertQuery.not_has_all,
        AssertQuery.has_any, AssertQuery.not_has_any, AssertQuery.all,
        AssertQuery.not_all, AssertQuery.any, AssertQuery.not_any,
        AssertQuery.length, AssertQuery.not_length]
      repeat' split
      all_goals simp_all [invert_after, AssertQuery.reset_invert]

/-- C3: `not()` flips the `invert` flag and is an involution — `not().not()`
returns the original builder, so every assertion call after `not().not()`
coincides with the same call with no `not()` at all. -/
theorem C3_not_involution {α : Type} [DecidableEq α] (q : AssertQuery α) :
    q.not.not = q ∧ q.not.invert = (!q.invert) ∧
    (∀ g, q.not.not.matches_ g = q.matches_ g) ∧
    (∀ x, q.not.not.has x = q.has x) ∧
    (∀ g, q.not.not.has_all g = q.has_all g) ∧
    (∀ g, q.not.not.has_any g = q.has_any g) ∧
    (∀ p, q.not.not.all p = q.all p) ∧
    (∀ p, q.not.not.any p = q.any p) ∧
    (∀ n, q.not.not.length n = q.length n) := by
  obtain ⟨Q, b⟩ := q
  have h : (AssertQuery.mk Q b).not.not = AssertQuery.mk Q b := by
    simp [AssertQuery.not]
  exact ⟨h, by simp [AssertQuery.not], fun g => by rw [h], fun x => by rw [h],
    fun g => by rw [h], fun g => by rw [h], fun p => by rw [h], fun p => by rw [h],
    fun n => by rw [h]⟩

/-- C4 (amended): the non-inverted `matches(E)` evaluates its sub-checks in
the fixed order missing-in-expected, missing-in-results, length, aborting at
the first failing one.  The missing-in-expected abort is triggered by the
first result record (in iteration order) absent from `E`, but its diagnostic
cites the whole expected list; the missing-in-results abort cites the first
expected record absent from the results; the length abort cites both lengths;
when no sub-check fails the call returns the builder. -/
theorem C4_matches_failure_order {α : Type} [DecidableEq α] (R E : List α) :
    (∀ pre r post, R = pre ++ r :: post → (∀ p ∈ pre, p ∈ E) → r ∉ E →
      (AssertQuery.mk R false).matches_ E = .error (.resultNotFound E)) ∧
    ((∀ x ∈ R, x ∈ E) →
      ∀ pre e post, E = pre ++ e :: post → (∀ p ∈ pre, p ∈ R) → e ∉ R →
        (AssertQuery.mk R false).matches_ E = .error (.unexpectedBundle e)) ∧
    ((∀ x ∈ R, x ∈ E) → (∀ y ∈ E, y ∈ R) → E.length ≠ R.length →
      (AssertQuery.mk R false).matches_ E =
        .error (.lengthMismatch E.length R.length)) ∧
    ((∀ x ∈ R, x ∈ E) → (∀ y ∈ E, y ∈ R) → E.length = R.length →
      (AssertQuery.mk R false).matches_ E = .ok (AssertQuery.mk R false)) := by
  refine ⟨?_, ?_, ?_, ?_⟩
  · intro pre r post hR hpre hr
    have h1 : AssertQuery.first_unmatched R E = some r := by
      rw [hR]; exact first_unmatched_of_decomp E pre r post hpre hr
    simp [AssertQuery.matches_, h1]
  · intro hRE pre e post hE hpre he
    have h1 : AssertQuery.first_unmatched R E = none :=
      (first_unmatched_eq_none_iff R E).2 hRE
    have h2 : AssertQuery.first_unmatched E R = some e := by
      rw [hE]; exact first_unmatched_of_decomp R pre e post hpre he
    simp [AssertQuery.matches_, h1, h2]
  · intro hRE hER hlen
    have h1 : AssertQuery.first_unmatched R E = none :=
      (first_unmatched_eq_none_iff R E).2 hRE
    have h2 : AssertQuery.first_unmatched E R = none :=
      (first_unmatched_eq_none_iff E R).2 hER
    simp [AssertQuery.matches_, h1, h2, hlen]
  · intro hRE hER hlen
    have h1 : AssertQuery.first_unmatched R E = none :=
      (first_unmatched_eq_none_iff R E).2 hRE
    have h2 : AssertQuery.first_unmatched E R = none :=
      (first_unmatched_eq_none_iff E R).2 hER
    simp [AssertQuery.matches_, h1, h2, hlen]

/-- C4 counterexample: for results `[0]` and expected `[1, 2]` the first (and
only) result record `0` triggers the missing-in-expected abort, yet the
diagnostic arguments of that abort (`Given = [1, 2]`, `Found = None`) do not
cite `0`, refuting "citing the first such in iteration order". -/
theorem C4_counterexample :
    (AssertQuery.mk [(0 : Nat)] false).matches_ [1, 2] =
      .error (.resultNotFound [1, 2]) ∧
    AssertQuery.first_unmatched [(0 : Nat)] [1, 2] = some 0 ∧
    (0 : Nat) ∉ (Failure.resultNotFound ([1, 2] : List Nat)).cited := by
  exact ⟨rfl, rfl, by decide⟩

/-- C4 witness: the four conjuncts applied at concrete inputs exercising each
sub-check in order. -/
theorem C4_witness :
    ((AssertQuery.mk [(0 : Nat)] false).matches_ [1] =
      .error (.resultNotFound [1])) ∧
    ((AssertQuery.mk [(0 : Nat)] false).matches_ [0, 5] =
      .error (.unexpectedBundle 5)) ∧
    ((AssertQuery.mk [(0 : Nat), 0] false).matches_ [0] =
      .error (.lengthMismatch 1 2)) ∧
    ((AssertQuery.mk [(0 : Nat)] false).matches_ [0] =
      .ok (AssertQuery.mk [0] false)) :=
  ⟨(C4_matches_failure_order [0] [1]).1 [] 0 [] rfl (by decide) (by decide),
   (C4_matches_failure_order [0] [0, 5]).2.1 (by decide) [0] 5 [] rfl
     (by decide) (by decide),
   (C4_matches_failure_order [0, 0] [0]).2.2.1 (by decide) (by decide) (by decide),
   (C4_matches_failure_order [0] [0]).2.2.2 (by decide) (by decide) (by decide)⟩

/-- C5: on the empty result set, `length(0)` succeeds, `has(x)` aborts for
every `x`, `not().has(x)` succeeds for every `x`, `all(p)` succeeds vacuously
for every predicate, and `any(p)` aborts for every predicate. -/
theorem C5_empty_results {α : Type} [DecidableEq α] :
    ((AssertQuery.mk ([] : List α) false).length 0).isOk = true ∧
    (∀ x : α, ((AssertQuery.mk [] false).has x).isOk = false) ∧
    (∀ x : α, ((AssertQuery.mk ([] : List α) false).not.has x).isOk = true) ∧
    (∀ p : α → Bool, ((AssertQuery.mk ([] : List α) false).all p).isOk = true) ∧
    (∀ p : α → Bool, ((AssertQuery.mk ([] : List α) false).any p).isOk = false) :=
  ⟨rfl, fun _ => rfl, fun _ => rfl, fun _ => rfl, fun _ => rfl⟩

/-- C6: `has(x)` and `has_all([x])` always agree (same success/abort outcome,
for either value of `invert`), and the positive forms succeed iff `x` is
present in the results while the `not()` forms succeed iff it is absent. -/
theorem C6_has_agrees_has_all {α : Type} [DecidableEq α] (R : List α)
    (b : Bool) (x : α) :
    (((AssertQuery.mk R b).has x).isOk = ((AssertQuery.mk R b).has_all [x]).isOk) ∧
    (((AssertQuery.mk R false).has x).isOk = true ↔ x ∈ R) ∧
    (((AssertQuery.mk R false).not.has x).isOk = true ↔ x ∉ R) ∧
    (((AssertQuery.mk R false).not.has_all [x]).isOk = true ↔ x ∉ R) := by
  by_cases hx : x ∈ R
  · have h : R.any (fun v => v == x) = true := (any_beq_iff_mem R x).2 hx
    cases b <;>
      simp [AssertQuery.has, AssertQuery.has_all, AssertQuery.not,
        AssertQuery.not_has, AssertQuery.not_has_all, AssertQuery.first_unmatched,
        AssertQuery.reset_invert, h, hx, Except.isOk, Except.toBool]
  · have h : R.any (fun v => v == x) = false := by
      simp only [List.any_eq_false]
      intro v hv
      simp only [beq_iff_eq]
      exact fun hvx => hx (hvx ▸ hv)
    cases b <;>
      simp [AssertQuery.has, AssertQuery.has_all, AssertQuery.not,
        AssertQuery.not_has, AssertQuery.not_has_all, AssertQuery.first_unmatched,
        AssertQuery.reset_invert, h, hx, Except.isOk, Except.toBool]

/-- C9: with an empty expected sequence, on every result set the non-inverted
`has_any` aborts and `not().has_any` succeeds, while `has_all` succeeds and
`not().has_all` aborts. -/
theorem C9_empty_given {α : Type} [DecidableEq α] (R : List α) :
    ((AssertQuery.mk R false).has_any []).isOk = false ∧
    ((AssertQuery.mk R false).not.has_any []).isOk = true ∧
    ((AssertQuery.mk R false).has_all []).isOk = true ∧
    ((AssertQuery.mk R false).not.has_all []).isOk = false := by
  have h : R.any (fun bundle => ([] : List α).any (fun g => g == bundle)) = false := by
    simp
  refine ⟨?_, ?_, ?_, ?_⟩ <;>
    simp [AssertQuery.has_any, AssertQuery.not_has_any, AssertQuery.has_all,
      AssertQuery.not_has_all, AssertQuery.not, AssertQuery.first_unmatched,
      AssertQuery.reset_invert, Except.isOk, Except.toBool, h]

/-- C7 (amended): the Given/Found preview truncation is driven by the UTF-8
byte length, not the character count: a rendering of at most 300 bytes is
shown in full, and whenever a rendering over 300 bytes produces a preview
(no slice panic), the kept part is a prefix of the rendering measuring
exactly 300 bytes, with the elision marker appended. -/
theorem C7_preview_truncation (s : List Char) :
    (utf8_len s ≤ MAX_DEBUG_LEN → truncate_debug s = some s) ∧
    (∀ t, truncate_debug s = some t → utf8_len s > MAX_DEBUG_LEN →
      ∃ u v, s = u ++ v ∧ utf8_len u = MAX_DEBUG_LEN ∧ t = u ++ elision_marker) := by
  constructor
  · intro h
    simp only [truncate_debug]
    rw [if_neg (Nat.not_lt.2 h)]
  · intro t ht hgt
    simp only [truncate_debug, if_pos hgt] at ht
    split at ht
    · rename_i u hu
      obtain rfl : u ++ elision_marker = t := Option.some.inj ht
      obtain ⟨⟨v, hv⟩, hlen⟩ := take_bytes_spec s MAX_DEBUG_LEN u hu
      exact ⟨u, v, hv, hlen, rfl⟩
    · exact absurd ht (by simp)

/-- C7 counterexample: 151 two-byte characters are 151 ≤ 300 characters, so
the claim requires the rendering to be shown in full, but its 302-byte
encoding exceeds the bound and the code truncates it and appends the elision
marker. -/
theorem C7_counterexample :
    (List.replicate 151 'é').length ≤ MAX_DEBUG_LEN ∧
    truncate_debug (List.replicate 151 'é') ≠ some (List.replicate 151 'é') := by
  exact ⟨by decide, by decide⟩

/-- C7 witness: the full-display conjunct at a one-character rendering and
the truncation conjunct at 151 two-byte characters. -/
theorem C7_witness :
    truncate_debug [' '] = some [' '] ∧
    ∃ u v, List.replicate 151 'é' = u ++ v ∧ utf8_len u = MAX_DEBUG_LEN ∧
      List.replicate 150 'é' ++ elision_marker = u ++ elision_marker :=
  ⟨(C7_preview_truncation [' ']).1 (by decide),
   (C7_preview_truncation (List.replicate 151 'é')).2
     (List.replicate 150 'é' ++ elision_marker) (by decide) (by decide)⟩

/-- C8: for an existing entity, `component::<T>` panics exactly when
`get_component::<T>` returns `None`, and otherwise returns precisely the
value `get_component` wraps in `Some`. -/
theorem C8_component_lookup {T : Type} (w : ComponentStore T) (entity : Nat) :
    ((TestApp.component w entity).isOk = false ↔
      TestApp.get_component w entity = none) ∧
    (∀ v, TestApp.component w entity = Except.ok v ↔
      TestApp.get_component w entity = some v) := by
  cases h : TestApp.get_component w entity with
  | none => simp [TestApp.component, h, Except.isOk, Except.toBool]
  | some v => simp [TestApp.component, h, Except.isOk, Except.toBool]

/-- C10: the preview truncation slices at byte offset 300 (any produced slice
prefix measures exactly 300 UTF-8 bytes), and for a 301-byte rendering whose
two-byte final character straddles offset 300 both diagnostic formatters
panic (produce no diagnostic) instead of truncated output. -/
theorem C10_byte_slice_panic :
    (∀ s u, take_bytes s MAX_DEBUG_LEN = some u → utf8_len u = MAX_DEBUG_LEN) ∧
    utf8_len (List.replicate 299 'a' ++ ['é']) > MAX_DEBUG_LEN ∧
    mismatch (List.replicate 299 'a' ++ ['é']) [] = none ∧
    unexpected_match (List.replicate 299 'a' ++ ['é']) = none := by
  exact ⟨fun s u h => (take_bytes_spec s MAX_DEBUG_LEN u h).2,
    by decide, by decide, by decide⟩

/-- C10 witness: the byte-exactness conjunct applied to 100 three-byte
characters, a 300-byte rendering sliced whole. -/
theorem C10_witness : utf8_len (List.replicate 100 '€') = MAX_DEBUG_LEN :=
  C10_byte_slice_panic.1 (List.replicate 100 '€') (List.replicate 100 '€')
    (by decide)
